import Mathlib

/-!
Shallow embedding of `benchmarks/mk_tasks.py` from the VCFX repository: a
compiler from a declarative task catalog (YAML) to a Makefile-style build
document.  Pure functions of the script become Lean functions; the printed
output of `main` becomes a list of strings (one element per `print` call);
the fallible pipeline (YAML parsing, dynamic attribute/key errors) becomes
explicit `Except`/`Option` passing that fails at the same program points as
the Python code does.
-/

namespace VCFX.MkTasks

/-- Task record: one entry of the `tasks` list of the catalog.  In the
Python source a task is a dict; the fields `args` and `command` are read
with `task.get(key, "")`, so an absent (or empty) value behaves as `""`,
which is how we model optionality here. -/
structure Task where
  name : String
  tool : String
  input : String
  args : String := ""
  command : String := ""
deriving Repr, DecidableEq

/-- Character-wise test that `p` is an initial segment of `s` (Python
`str.startswith`), stated over the character lists so that it reduces in
the kernel. -/
def strStartsWith (s p : String) : Bool :=
  p.data.isPrefixOf s.data

/-- Character-wise uppercasing (Python `str.upper`; the tool identifiers
this is applied to are ASCII, where the two agree). -/
def strUpper (s : String) : String :=
  ⟨s.data.map Char.toUpper⟩

/-- Character-wise lowercasing (Python `str.lower` on the ASCII tool
identifiers). -/
def strLower (s : String) : String :=
  ⟨s.data.map Char.toLower⟩

/-- Registry of first-party tools, transcribed from the module-level
`VCFX_TOOLS` list (lines 12-73 of `mk_tasks.py`), in declaration order. -/
def VCFX_TOOLS : List String :=
  [ "VCFX_af_subsetter"
  , "VCFX_alignment_checker"
  , "VCFX_allele_balance_calc"
  , "VCFX_allele_balance_filter"
  , "VCFX_allele_counter"
  , "VCFX_allele_freq_calc"
  , "VCFX_ancestry_assigner"
  , "VCFX_ancestry_inferrer"
  , "VCFX_annotation_extractor"
  , "VCFX_compressor"
  , "VCFX_concordance_checker"
  , "VCFX_cross_sample_concordance"
  , "VCFX_custom_annotator"
  , "VCFX_diff_tool"
  , "VCFX_distance_calculator"
  , "VCFX_dosage_calculator"
  , "VCFX_duplicate_remover"
  , "VCFX_fasta_converter"
  , "VCFX_field_extractor"
  , "VCFX_file_splitter"
  , "VCFX_format_converter"
  , "VCFX_genotype_query"
  , "VCFX_gl_filter"
  , "VCFX_haplotype_extractor"
  , "VCFX_haplotype_phaser"
  , "VCFX_header_parser"
  , "VCFX_hwe_tester"
  , "VCFX_impact_filter"
  , "VCFX_inbreeding_calculator"
  , "VCFX_indel_normalizer"
  , "VCFX_indexer"
  , "VCFX_info_aggregator"
  , "VCFX_info_parser"
  , "VCFX_info_summarizer"
  , "VCFX_ld_calculator"
  , "VCFX_merger"
  , "VCFX_metadata_summarizer"
  , "VCFX_missing_data_handler"
  , "VCFX_missing_detector"
  , "VCFX_multiallelic_splitter"
  , "VCFX_nonref_filter"
  , "VCFX_outlier_detector"
  , "VCFX_phase_checker"
  , "VCFX_phase_quality_filter"
  , "VCFX_phred_filter"
  , "VCFX_population_filter"
  , "VCFX_position_subsetter"
  , "VCFX_probability_filter"
  , "VCFX_quality_adjuster"
  , "VCFX_record_filter"
  , "VCFX_ref_comparator"
  , "VCFX_reformatter"
  , "VCFX_region_subsampler"
  , "VCFX_sample_extractor"
  , "VCFX_sorter"
  , "VCFX_subsampler"
  , "VCFX_sv_handler"
  , "VCFX_validator"
  , "VCFX_variant_classifier"
  , "VCFX_variant_counter" ]

/-- Transcription of `generate_tool_command` (lines 76-102): synthesize the
invocation command for a task from its tool family.  Python's
`if args:` truthiness test on the string read by `task.get("args", "")`
is the test `args ≠ ""`. -/
def generate_tool_command (task : Task) : String :=
  let tool := task.tool
  let input_file := "$(DATA_DIR)/" ++ task.input
  let args := task.args
  if tool = "VCFX_VALIDATOR_MMAP" then
    "$(VCFX_VALIDATOR) -i " ++ input_file
  else if strStartsWith tool "VCFX_" then
    let tool_var := strUpper tool
    if args ≠ "" then
      "$(" ++ tool_var ++ ") " ++ args ++ " < " ++ input_file
    else
      "$(" ++ tool_var ++ ") < " ++ input_file
  else if tool = "BCFTOOLS" then
    "$(" ++ tool ++ ") " ++ task.command ++ " " ++ input_file
  else if tool = "VCFTOOLS" then
    "$(" ++ tool ++ ") --vcf " ++ input_file ++ " " ++ task.command ++ " --stdout 2>/dev/null"
  else if tool = "GATK" then
    "$(" ++ tool ++ ") " ++ task.command ++ " -I " ++ input_file
  else
    "$(" ++ tool ++ ") " ++ input_file

/-- Transcription of `generate_conditional_rule` (lines 105-131): wrap the
synthesized command in a Makefile rule, conditional on tool availability
for the third-party families. -/
def generate_conditional_rule (task : Task) : String :=
  let tool := task.tool
  let task_name := task.name
  let input_file := "$(DATA_DIR)/" ++ task.input
  let output_file := "results/" ++ task_name ++ ".csv"
  let command := generate_tool_command task
  if tool ∈ ["BCFTOOLS", "VCFTOOLS", "GATK", "VCFLIB"] then
    let tool_check := strLower tool
    let tool_check := if tool = "GATK" then "gatk" else tool_check
    "\n" ++ output_file ++ ": " ++ input_file ++
    "\n\t@if command -v " ++ tool_check ++ " >/dev/null 2>&1; then \\" ++
    "\n\t\t$(call run-task," ++ command ++ "," ++ output_file ++ "); \\" ++
    "\n\telse \\" ++
    "\n\t\techo \"Skipping " ++ task_name ++ ": " ++ tool_check ++ " not available\" > " ++ output_file ++ "; \\" ++
    "\n\t\techo \"0\" > " ++ output_file ++ ".time; \\" ++
    "\n\tfi"
  else
    "\n" ++ output_file ++ ": " ++ input_file ++
    "\n\t$(call run-task," ++ command ++ "," ++ output_file ++ ")"

/-- The lines printed by `main` before the task list is first touched
(lines 139-159 of the source: header and directory variables, one
binary-path variable per registry tool, and the comparison-tool variables).
Each list element is the payload of one `print` call. -/
def preamble_lines : List String :=
  [ "# Auto-generated from tasks.yaml - do not edit manually"
  , "ROOT_DIR := $(abspath ..)"
  , "DATA_DIR := $(ROOT_DIR)/benchmarks/data"
  , "RESULTS_DIR := $(ROOT_DIR)/benchmarks/results"
  , "BENCH_SCRIPTS := $(ROOT_DIR)/benchmarks/scripts"
  , "VCFX_BIN_DIR ?= $(ROOT_DIR)/build/src"
  , "" ]
  ++ VCFX_TOOLS.map (fun tool => strUpper tool ++ " := $(VCFX_BIN_DIR)/" ++ tool ++ "/" ++ tool)
  ++ [ ""
  , "# Comparison tools (if available)"
  , "BCFTOOLS ?= bcftools"
  , "VCFTOOLS ?= vcftools"
  , "GATK ?= gatk"
  , "VCFLIB_vcfstats ?= vcfstats"
  , "VCFLIB_vcffilter ?= vcffilter"
  , "" ]

/-- The `TASKS` variable line (lines 162-163). -/
def tasks_line (tasks : List Task) : String :=
  "TASKS := " ++ String.intercalate " " (tasks.map Task.name)

/-- The `OUTPUTS` variable line (lines 167-168). -/
def outputs_line (tasks : List Task) : String :=
  "OUTPUTS := " ++ String.intercalate " " (tasks.map fun t => "results/" ++ t.name ++ ".csv")

/-- The lines printed by `main` after the rules (lines 175-181): default
and clean targets. -/
def trailer_lines : List String :=
  [ ""
  , "# Default target"
  , "all: $(OUTPUTS)"
  , ""
  , "# Clean target"
  , "clean:"
  , "\trm -rf results/*.csv results/*.time" ]

/-- Full output of `main` on a catalog of well-formed tasks, as the list of
`print` payloads in print order (lines 134-181). -/
def main_output (tasks : List Task) : List String :=
  preamble_lines
  ++ [tasks_line tasks, "", outputs_line tasks, ""]
  ++ tasks.map generate_conditional_rule
  ++ trailer_lines

/-- YAML-like value, modelling what `yaml.safe_load` can return for this
script: scalars, sequences, and string-keyed mappings. -/
inductive YVal where
  | null
  | bool (b : Bool)
  | str (s : String)
  | int (n : Int)
  | list (xs : List YVal)
  | map (kvs : List (String × YVal))
deriving Repr

/-- Key lookup in a mapping (Python `dict` access / `dict.get`); YAML
mappings have unique keys, so first-match lookup is faithful. -/
def yLookup (k : String) : List (String × YVal) → Option YVal
  | [] => none
  | (k', v) :: rest => if k' = k then some v else yLookup k rest

/-- String scalar extraction.  A `null` value (and any non-string scalar)
yields `none`; for the optional `args`/`command` fields this composes with
a default of `""`, matching how Python treats those values as falsy. -/
def getStr : YVal → Option String
  | .str s => some s
  | _ => none

/-- Extraction of the `name` field of a task mapping, the only field the
`TASKS`/`OUTPUTS` joins at lines 162 and 167 touch; `none` where Python
raises (non-mapping entry, missing key, non-string name). -/
def yName (v : YVal) : Option String :=
  match v with
  | .map kvs => (yLookup "name" kvs).bind getStr
  | _ => none

/-- Left-to-right extraction of every entry's `name` (the generator
expressions of lines 162 and 167 consume names in order and abort at the
first failing entry). -/
def yNames : List YVal → Option (List String)
  | [] => some []
  | v :: rest =>
    match yName v with
    | none => none
    | some n =>
      match yNames rest with
      | none => none
      | some ns => some (n :: ns)

/-- Conversion of one catalog entry to a task record; `none` where the rule
generators of the Python code would raise (non-mapping entry, missing or
non-string `name`/`tool`/`input`).  Absent or null `args`/`command`
become `""`, the behaviour of `task.get(key, "")` under truthiness. -/
def yTask (v : YVal) : Option Task :=
  match v with
  | .map kvs => do
      let name ← (yLookup "name" kvs).bind getStr
      let tool ← (yLookup "tool" kvs).bind getStr
      let input ← (yLookup "input" kvs).bind getStr
      let args := ((yLookup "args" kvs).bind getStr).getD ""
      let command := ((yLookup "command" kvs).bind getStr).getD ""
      pure ⟨name, tool, input, args, command⟩
  | _ => none

/-- The rule-printing loop of lines 172-173: emits one rule per entry until
an entry fails to convert, in which case the lines printed so far stand and
the error aborts the rest. -/
def emitRules : List YVal → List String × Option String
  | [] => ([], none)
  | item :: rest =>
    match yTask item with
    | none => ([], some "KeyError")
    | some t =>
      let p := emitRules rest
      (generate_conditional_rule t :: p.1, p.2)

/-- The body of `main` (lines 134-181) over the result of reading and
parsing the document: returns the list of printed lines together with
`none` on success or `some err` when an exception aborts the run.  The
fields mirror the Python failure points: a parse error or a non-mapping
top level aborts before any print; a `tasks` value that is not a list of
well-formed records aborts at the first line that touches it. -/
def run_main (parsed : Except String YVal) : List String × Option String :=
  match parsed with
  | .error e => ([], some e)
  | .ok (.map kvs) =>
    let tasksVal := (yLookup "tasks" kvs).getD (.list [])
    match tasksVal with
    | .list items =>
      match yNames items with
      | none => (preamble_lines, some "TypeError")
      | some names =>
        let head := preamble_lines ++
          [ "TASKS := " ++ String.intercalate " " names
          , ""
          , "OUTPUTS := " ++ String.intercalate " " (names.map fun n => "results/" ++ n ++ ".csv")
          , "" ]
        let p := emitRules items
        match p.2 with
        | some e => (head ++ p.1, some e)
        | none => (head ++ p.1 ++ trailer_lines, none)
    | _ => (preamble_lines, some "TypeError")
  | .ok _ => ([], some "AttributeError")

/-- The `__main__` guard (lines 184-188): with any argument arity other
than exactly one document path after the program name, print the usage
line and exit 1; otherwise run `main` on the parse of the given path,
exiting 0 on success and nonzero (1, Python's unhandled-exception exit)
on error.  `parse` abstracts the filesystem read plus `yaml.safe_load`. -/
def run_cli (parse : String → Except String YVal) (argv : List String) : List String × Nat :=
  match argv with
  | [_, path] =>
    let r := run_main (parse path)
    (r.1, match r.2 with | none => 0 | some _ => 1)
  | _ => (["Usage: mk_tasks.py TASKS.yaml"], 1)

/-- Canonical YAML encoding of a task record, for relating the pipeline to
`main_output`. -/
def yOfTask (t : Task) : YVal :=
  .map [ ("name", .str t.name), ("tool", .str t.tool), ("input", .str t.input)
       , ("args", .str t.args), ("command", .str t.command) ]

/-- Canonical YAML encoding of a whole catalog. -/
def yCatalog (tasks : List Task) : YVal :=
  .map [("tasks", .list (tasks.map yOfTask))]

/-- Example task used to instantiate universally quantified results. -/
def exTask : Task := ⟨"sort_small", "VCFX_sorter", "a.vcf", "", ""⟩

/-- Example one-task catalog. -/
def exCatalog : List Task := [exTask]

/-- Example parse function returning the example catalog for any path. -/
def exParse : String → Except String YVal := fun _ => .ok (yCatalog exCatalog)

/-- The claim that some third-party family's command synthesis branches on
the substring `count` of the task name: two tasks agreeing on `tool`,
`input`, `args` and `command`, one name containing `count` and the other
not, with different synthesized commands. -/
def nameSniffClaim : Prop :=
  ∃ t t' : Task,
    t.tool = t'.tool ∧
    t.tool ∈ ["BCFTOOLS", "VCFTOOLS", "GATK", "VCFLIB"] ∧
    t.input = t'.input ∧ t.args = t'.args ∧ t.command = t'.command ∧
    (∃ u v, t.name = u ++ "count" ++ v) ∧
    (¬ ∃ u v, t'.name = u ++ "count" ++ v) ∧
    generate_tool_command t ≠ generate_tool_command t'

/-- Command synthesis never reads the `name` field: at identical remaining
fields the result is literally the same term. -/
theorem gtc_name_irrelevant (n n' tool i a c : String) :
    generate_tool_command ⟨n, tool, i, a, c⟩ = generate_tool_command ⟨n', tool, i, a, c⟩ := rfl

/-- Appending on the right preserves an initial-segment decomposition. -/
theorem ex_append_tail {s x : String} (h : ∃ r, s = x ++ r) (y : String) :
    ∃ r, s ++ y = x ++ r := by
  obtain ⟨r, rfl⟩ := h
  exact ⟨r ++ y, String.append_assoc x r y⟩

/-- C3: first-party commands.  The validator/mmap variant takes a named
file argument; every other `VCFX_`-prefixed tool reads the resolved input
on standard input, with `args` (when set) verbatim after the uppercased
tool variable. -/
theorem first_party_command_shape (t : Task) :
    (t.tool = "VCFX_VALIDATOR_MMAP" →
      generate_tool_command t = "$(VCFX_VALIDATOR) -i " ++ ("$(DATA_DIR)/" ++ t.input)) ∧
    (strStartsWith t.tool "VCFX_" = true → t.tool ≠ "VCFX_VALIDATOR_MMAP" →
      (t.args ≠ "" →
        generate_tool_command t =
          "$(" ++ strUpper t.tool ++ ") " ++ t.args ++ " < " ++ ("$(DATA_DIR)/" ++ t.input)) ∧
      (t.args = "" →
        generate_tool_command t =
          "$(" ++ strUpper t.tool ++ ") < " ++ ("$(DATA_DIR)/" ++ t.input))) := by
  obtain ⟨n, tool, i, a, c⟩ := t
  dsimp only
  constructor
  · rintro rfl
    rfl
  · intro h hne
    constructor
    · intro ha
      simp [generate_tool_command, if_neg hne, h, ha]
    · intro ha
      subst ha
      simp [generate_tool_command, if_neg hne, h]

/-- Witness for `first_party_command_shape` at a concrete task. -/
theorem first_party_command_shape_witness :
    generate_tool_command ⟨"af", "VCFX_af_subsetter", "t.vcf", "0.01-0.1", ""⟩ =
      "$(" ++ strUpper "VCFX_af_subsetter" ++ ") " ++ "0.01-0.1" ++ " < " ++ ("$(DATA_DIR)/" ++ "t.vcf") :=
  ((first_party_command_shape ⟨"af", "VCFX_af_subsetter", "t.vcf", "0.01-0.1", ""⟩).2
    (by decide) (by decide)).1 (by decide)

/-- C4: third-party flag grammars: `--vcf <input> <command> --stdout` for
VCFTOOLS (plus a stderr silencer), `<command> -I <input>` for GATK, and a
sub-command with a bare positional input for BCFTOOLS; a VCFTOOLS task
with command `--freq` therefore contains `--freq --stdout`. -/
theorem third_party_flag_grammar (t : Task) :
    (t.tool = "BCFTOOLS" →
      generate_tool_command t = "$(" ++ t.tool ++ ") " ++ t.command ++ " " ++ ("$(DATA_DIR)/" ++ t.input)) ∧
    (t.tool = "VCFTOOLS" →
      generate_tool_command t =
        "$(" ++ t.tool ++ ") --vcf " ++ ("$(DATA_DIR)/" ++ t.input) ++ " " ++ t.command ++ " --stdout 2>/dev/null") ∧
    (t.tool = "GATK" →
      generate_tool_command t = "$(" ++ t.tool ++ ") " ++ t.command ++ " -I " ++ ("$(DATA_DIR)/" ++ t.input)) ∧
    (t.tool = "VCFTOOLS" → t.command = "--freq" →
      ∃ pre, generate_tool_command t = pre ++ " --freq --stdout 2>/dev/null") := by
  obtain ⟨n, tool, i, a, c⟩ := t
  refine ⟨?_, ?_, ?_, ?_⟩
  · rintro rfl
    rfl
  · rintro rfl
    rfl
  · rintro rfl
    rfl
  · rintro rfl rfl
    refine ⟨"$(" ++ "VCFTOOLS" ++ ") --vcf " ++ ("$(DATA_DIR)/" ++ i), ?_⟩
    show ("$(" ++ "VCFTOOLS" ++ ") --vcf " ++ ("$(DATA_DIR)/" ++ i) ++ " ") ++ "--freq" ++ " --stdout 2>/dev/null" = _
    rw [String.append_assoc, String.append_assoc]
    exact congrArg _ (by decide)

/-- Witness for `third_party_flag_grammar` at a concrete task. -/
theorem third_party_flag_grammar_witness :
    generate_tool_command ⟨"vt_freq", "VCFTOOLS", "b.vcf", "", "--freq"⟩ =
      "$(" ++ "VCFTOOLS" ++ ") --vcf " ++ ("$(DATA_DIR)/" ++ "b.vcf") ++ " " ++ "--freq" ++ " --stdout 2>/dev/null" :=
  (third_party_flag_grammar ⟨"vt_freq", "VCFTOOLS", "b.vcf", "", "--freq"⟩).2.1 rfl

/-- C5 counterexample: the claimed name-sensitivity is refutable — command
synthesis is independent of the task name, so no pair of otherwise-equal
tasks can get different commands from a `count` substring of the name. -/
theorem name_sniff_claim_false : ¬ nameSniffClaim := by
  rintro ⟨t, t', h1, _, h2, h3, h4, _, _, hne⟩
  obtain ⟨n, tool, i, a, c⟩ := t
  obtain ⟨n', tool', i', a', c'⟩ := t'
  cases h1
  cases h2
  cases h3
  cases h4
  exact hne (gtc_name_irrelevant n n' tool i a c)

/-- C5 (amended): the Command Synthesizer does not branch on the task
name; tasks identical in `tool`, `input`, `args` and `command` synthesize
identical commands whatever their names. -/
theorem command_independent_of_name (t t' : Task) (htool : t.tool = t'.tool)
    (hin : t.input = t'.input) (ha : t.args = t'.args) (hc : t.command = t'.command) :
    generate_tool_command t = generate_tool_command t' := by
  obtain ⟨n, tool, i, a, c⟩ := t
  obtain ⟨n', tool', i', a', c'⟩ := t'
  cases htool
  cases hin
  cases ha
  cases hc
  exact gtc_name_irrelevant n n' tool i a c

/-- Witness for `command_independent_of_name`: a name with `count` and one
without yield the same command. -/
theorem command_independent_of_name_witness :
    generate_tool_command ⟨"variant_count", "BCFTOOLS", "a.vcf", "", "view"⟩ =
      generate_tool_command ⟨"variant", "BCFTOOLS", "a.vcf", "", "view"⟩ :=
  command_independent_of_name _ _ rfl rfl rfl rfl

/-- C8: a `tool` matching no dispatch branch falls through, without error,
to the generic single-argument invocation of the tool's variable on the
resolved input path. -/
theorem unknown_tool_generic (t : Task)
    (h1 : ¬ strStartsWith t.tool "VCFX_" = true)
    (h2 : t.tool ≠ "BCFTOOLS") (h3 : t.tool ≠ "VCFTOOLS") (h4 : t.tool ≠ "GATK") :
    generate_tool_command t = "$(" ++ t.tool ++ ") " ++ ("$(DATA_DIR)/" ++ t.input) := by
  obtain ⟨n, tool, i, a, c⟩ := t
  dsimp only at h1 h2 h3 h4 ⊢
  have h0 : tool ≠ "VCFX_VALIDATOR_MMAP" := by
    rintro rfl
    exact h1 (by decide)
  simp only [Bool.not_eq_true] at h1
  simp only [generate_tool_command, if_neg h0, h1, if_neg h2, if_neg h3, if_neg h4]
  simp

/-- Witness for `unknown_tool_generic` at the VCFLIB family, which has no
dispatch branch. -/
theorem unknown_tool_generic_witness :
    generate_tool_command ⟨"stats", "VCFLIB", "t.vcf", "", ""⟩ =
      "$(" ++ "VCFLIB" ++ ") " ++ ("$(DATA_DIR)/" ++ "t.vcf") := by
  exact unknown_tool_generic _ (by decide) (by decide) (by decide) (by decide)

/-- C2: for the four third-party families the emitted rule is conditional —
a `command -v` presence check on the lower-cased tool identifier guards a
timed-run invocation of the synthesized command, with a skip marker and a
`0` timing file written on absence — while every `VCFX_`-prefixed task gets
the unconditional timed-run rule. -/
theorem third_party_conditional_first_party_unconditional (t : Task) :
    (t.tool ∈ ["BCFTOOLS", "VCFTOOLS", "GATK", "VCFLIB"] →
      generate_conditional_rule t =
        "\n" ++ ("results/" ++ t.name ++ ".csv") ++ ": " ++ ("$(DATA_DIR)/" ++ t.input) ++
        "\n\t@if command -v " ++ strLower t.tool ++ " >/dev/null 2>&1; then \\" ++
        "\n\t\t$(call run-task," ++ generate_tool_command t ++ "," ++ ("results/" ++ t.name ++ ".csv") ++ "); \\" ++
        "\n\telse \\" ++
        "\n\t\techo \"Skipping " ++ t.name ++ ": " ++ strLower t.tool ++ " not available\" > " ++ ("results/" ++ t.name ++ ".csv") ++ "; \\" ++
        "\n\t\techo \"0\" > " ++ ("results/" ++ t.name ++ ".csv") ++ ".time; \\" ++
        "\n\tfi") ∧
    (strStartsWith t.tool "VCFX_" = true →
      generate_conditional_rule t =
        "\n" ++ ("results/" ++ t.name ++ ".csv") ++ ": " ++ ("$(DATA_DIR)/" ++ t.input) ++
        "\n\t$(call run-task," ++ generate_tool_command t ++ "," ++ ("results/" ++ t.name ++ ".csv") ++ ")") := by
  obtain ⟨n, tool, i, a, c⟩ := t
  dsimp only
  constructor
  · intro hmem
    simp only [List.mem_cons, List.not_mem_nil, or_false] at hmem
    rcases hmem with rfl | rfl | rfl | rfl
    all_goals rfl
  · intro h
    have hm : tool ∉ ["BCFTOOLS", "VCFTOOLS", "GATK", "VCFLIB"] := by
      intro hmem
      simp only [List.mem_cons, List.not_mem_nil, or_false] at hmem
      rcases hmem with rfl | rfl | rfl | rfl
      all_goals exact absurd h (by decide)
    simp only [generate_conditional_rule, if_neg hm]

/-- Witness for `third_party_conditional_first_party_unconditional` at a
concrete BCFTOOLS task. -/
theorem third_party_conditional_witness :
    generate_conditional_rule ⟨"bv", "BCFTOOLS", "a.vcf", "", "view"⟩ =
      "\n" ++ ("results/" ++ "bv" ++ ".csv") ++ ": " ++ ("$(DATA_DIR)/" ++ "a.vcf") ++
      "\n\t@if command -v " ++ strLower "BCFTOOLS" ++ " >/dev/null 2>&1; then \\" ++
      "\n\t\t$(call run-task," ++ generate_tool_command ⟨"bv", "BCFTOOLS", "a.vcf", "", "view"⟩ ++ "," ++ ("results/" ++ "bv" ++ ".csv") ++ "); \\" ++
      "\n\telse \\" ++
      "\n\t\techo \"Skipping " ++ "bv" ++ ": " ++ strLower "BCFTOOLS" ++ " not available\" > " ++ ("results/" ++ "bv" ++ ".csv") ++ "; \\" ++
      "\n\t\techo \"0\" > " ++ ("results/" ++ "bv" ++ ".csv") ++ ".time; \\" ++
      "\n\tfi" :=
  (third_party_conditional_first_party_unconditional ⟨"bv", "BCFTOOLS", "a.vcf", "", "view"⟩).1 (by decide)

/-- Every rule begins with a newline followed by the task's target
`results/<name>.csv` and the prerequisite separator. -/
theorem rule_target_head (t : Task) :
    ∃ rest, generate_conditional_rule t = "\n" ++ ("results/" ++ t.name ++ ".csv") ++ ": " ++ rest := by
  obtain ⟨n, tool, i, a, c⟩ := t
  dsimp only
  by_cases hmem : tool ∈ ["BCFTOOLS", "VCFTOOLS", "GATK", "VCFLIB"]
  · simp only [generate_conditional_rule, if_pos hmem]
    iterate 20 apply ex_append_tail
    exact ⟨_, rfl⟩
  · simp only [generate_conditional_rule, if_neg hmem]
    iterate 5 apply ex_append_tail
    exact ⟨_, rfl⟩

/-- C1: the document carries exactly one rule per task, in catalog order
(the rule block list is the image of the catalog under the rule emitter),
each rule's target is `results/<name>.csv`, and the `TASKS` and `OUTPUTS`
variables list names and output paths space-separated in catalog order. -/
theorem one_rule_per_task (tasks : List Task) (t : Task) (_ht : t ∈ tasks) :
    main_output tasks =
      preamble_lines ++ ([tasks_line tasks, "", outputs_line tasks, ""] ++
        (tasks.map generate_conditional_rule ++ trailer_lines)) ∧
    (tasks.map generate_conditional_rule).length = tasks.length ∧
    tasks_line tasks = "TASKS := " ++ String.intercalate " " (tasks.map Task.name) ∧
    outputs_line tasks =
      "OUTPUTS := " ++ String.intercalate " " (tasks.map fun u => "results/" ++ u.name ++ ".csv") ∧
    ∃ rest, generate_conditional_rule t = "\n" ++ ("results/" ++ t.name ++ ".csv") ++ ": " ++ rest :=
  ⟨by simp [main_output, List.append_assoc], by simp, rfl, rfl, rule_target_head t⟩

/-- Witness for `one_rule_per_task` on the example catalog. -/
theorem one_rule_per_task_witness :
    main_output exCatalog =
      preamble_lines ++ ([tasks_line exCatalog, "", outputs_line exCatalog, ""] ++
        (exCatalog.map generate_conditional_rule ++ trailer_lines)) ∧
    (exCatalog.map generate_conditional_rule).length = exCatalog.length ∧
    tasks_line exCatalog = "TASKS := " ++ String.intercalate " " (exCatalog.map Task.name) ∧
    outputs_line exCatalog =
      "OUTPUTS := " ++ String.intercalate " " (exCatalog.map fun u => "results/" ++ u.name ++ ".csv") ∧
    ∃ rest, generate_conditional_rule exTask = "\n" ++ ("results/" ++ exTask.name ++ ".csv") ++ ": " ++ rest :=
  one_rule_per_task exCatalog exTask (by decide)

/-- C6: the assembled document is, in order: directory variables; one
binary-path variable per registry tool in registry order with the
`<TOOL_VAR> := $(VCFX_BIN_DIR)/<tool>/<tool>` pattern; overridable (`?=`)
third-party tool variables; `TASKS`; `OUTPUTS`; all rules in catalog
order; the default target over all outputs; and the clean target. -/
theorem assembled_document_order (tasks : List Task) :
    main_output tasks =
      [ "# Auto-generated from tasks.yaml - do not edit manually"
      , "ROOT_DIR := $(abspath ..)"
      , "DATA_DIR := $(ROOT_DIR)/benchmarks/data"
      , "RESULTS_DIR := $(ROOT_DIR)/benchmarks/results"
      , "BENCH_SCRIPTS := $(ROOT_DIR)/benchmarks/scripts"
      , "VCFX_BIN_DIR ?= $(ROOT_DIR)/build/src"
      , "" ]
      ++ VCFX_TOOLS.map (fun tool => strUpper tool ++ " := $(VCFX_BIN_DIR)/" ++ tool ++ "/" ++ tool)
      ++ [ ""
         , "# Comparison tools (if available)"
         , "BCFTOOLS ?= bcftools"
         , "VCFTOOLS ?= vcftools"
         , "GATK ?= gatk"
         , "VCFLIB_vcfstats ?= vcfstats"
         , "VCFLIB_vcffilter ?= vcffilter"
         , "" ]
      ++ [ "TASKS := " ++ String.intercalate " " (tasks.map Task.name), "" ]
      ++ [ "OUTPUTS := " ++ String.intercalate " " (tasks.map fun u => "results/" ++ u.name ++ ".csv"), "" ]
      ++ tasks.map generate_conditional_rule
      ++ [ ""
         , "# Default target"
         , "all: $(OUTPUTS)"
         , ""
         , "# Clean target"
         , "clean:"
         , "\trm -rf results/*.csv results/*.time" ] := by
  simp [main_output, preamble_lines, tasks_line, outputs_line, trailer_lines, List.append_assoc]

/-- C10: a VCFLIB task gets a conditional rule whose presence check is the
lower-cased family name `vcflib` and whose recipe is the generic
`$(VCFLIB) <input>` command, yet the fixed variable block of the document
binds only `VCFLIB_vcfstats` and `VCFLIB_vcffilter` — no line of it binds
a plain `VCFLIB` variable. -/
theorem vcflib_rule_uses_unbound_variable (t : Task) (tasks : List Task) (h : t.tool = "VCFLIB") :
    generate_conditional_rule t =
      "\n" ++ ("results/" ++ t.name ++ ".csv") ++ ": " ++ ("$(DATA_DIR)/" ++ t.input) ++
      "\n\t@if command -v " ++ strLower "VCFLIB" ++ " >/dev/null 2>&1; then \\" ++
      "\n\t\t$(call run-task," ++ generate_tool_command t ++ "," ++ ("results/" ++ t.name ++ ".csv") ++ "); \\" ++
      "\n\telse \\" ++
      "\n\t\techo \"Skipping " ++ t.name ++ ": " ++ strLower "VCFLIB" ++ " not available\" > " ++ ("results/" ++ t.name ++ ".csv") ++ "; \\" ++
      "\n\t\techo \"0\" > " ++ ("results/" ++ t.name ++ ".csv") ++ ".time; \\" ++
      "\n\tfi" ∧
    generate_tool_command t = "$(" ++ "VCFLIB" ++ ") " ++ ("$(DATA_DIR)/" ++ t.input) ∧
    strLower "VCFLIB" = "vcflib" ∧
    (∀ line ∈ preamble_lines, strStartsWith line "VCFLIB" = true →
      line = "VCFLIB_vcfstats ?= vcfstats" ∨ line = "VCFLIB_vcffilter ?= vcffilter") ∧
    main_output tasks =
      preamble_lines ++ ([tasks_line tasks, "", outputs_line tasks, ""] ++
        (tasks.map generate_conditional_rule ++ trailer_lines)) := by
  obtain ⟨n, tool, i, a, c⟩ := t
  dsimp only at h ⊢
  subst h
  exact ⟨rfl, rfl, by decide, by decide, by simp [main_output, List.append_assoc]⟩

/-- Witness for `vcflib_rule_uses_unbound_variable` at a concrete task. -/
theorem vcflib_rule_witness :
    generate_conditional_rule ⟨"vstats", "VCFLIB", "a.vcf", "", ""⟩ =
      "\n" ++ ("results/" ++ "vstats" ++ ".csv") ++ ": " ++ ("$(DATA_DIR)/" ++ "a.vcf") ++
      "\n\t@if command -v " ++ strLower "VCFLIB" ++ " >/dev/null 2>&1; then \\" ++
      "\n\t\t$(call run-task," ++ generate_tool_command ⟨"vstats", "VCFLIB", "a.vcf", "", ""⟩ ++ "," ++ ("results/" ++ "vstats" ++ ".csv") ++ "); \\" ++
      "\n\telse \\" ++
      "\n\t\techo \"Skipping " ++ "vstats" ++ ": " ++ strLower "VCFLIB" ++ " not available\" > " ++ ("results/" ++ "vstats" ++ ".csv") ++ "; \\" ++
      "\n\t\techo \"0\" > " ++ ("results/" ++ "vstats" ++ ".csv") ++ ".time; \\" ++
      "\n\tfi" ∧
    generate_tool_command ⟨"vstats", "VCFLIB", "a.vcf", "", ""⟩ =
      "$(" ++ "VCFLIB" ++ ") " ++ ("$(DATA_DIR)/" ++ "a.vcf") ∧
    strLower "VCFLIB" = "vcflib" ∧
    (∀ line ∈ preamble_lines, strStartsWith line "VCFLIB" = true →
      line = "VCFLIB_vcfstats ?= vcfstats" ∨ line = "VCFLIB_vcffilter ?= vcffilter") ∧
    main_output exCatalog =
      preamble_lines ++ ([tasks_line exCatalog, "", outputs_line exCatalog, ""] ++
        (exCatalog.map generate_conditional_rule ++ trailer_lines)) :=
  vcflib_rule_uses_unbound_variable ⟨"vstats", "VCFLIB", "a.vcf", "", ""⟩ exCatalog rfl

/-- One task record encodes and decodes to itself (name projection). -/
theorem yName_yOfTask (t : Task) : yName (yOfTask t) = some t.name := rfl

/-- One task record encodes and decodes to itself. -/
theorem yTask_yOfTask (t : Task) : yTask (yOfTask t) = some t := by
  obtain ⟨n, tool, i, a, c⟩ := t
  rfl

/-- Name extraction over the canonical encoding of a catalog. -/
theorem yNames_yOfTask (tasks : List Task) :
    yNames (tasks.map yOfTask) = some (tasks.map Task.name) := by
  induction tasks with
  | nil => rfl
  | cons t ts ih => simp [yNames, yName_yOfTask, ih]

/-- The rule loop over the canonical encoding of a catalog emits exactly
the mapped rules, with no error. -/
theorem emitRules_yOfTask (tasks : List Task) :
    emitRules (tasks.map yOfTask) = (tasks.map generate_conditional_rule, none) := by
  induction tasks with
  | nil => rfl
  | cons t ts ih => simp [emitRules, yTask_yOfTask, ih]

/-- On the canonical encoding of a well-formed catalog, `main` prints the
full document and raises nothing. -/
theorem run_main_yCatalog (tasks : List Task) :
    run_main (.ok (yCatalog tasks)) = (main_output tasks, none) := by
  simp [run_main, yCatalog, yLookup, yNames_yOfTask, emitRules_yOfTask,
    main_output, tasks_line, outputs_line, List.map_map, Function.comp_def, List.append_assoc]

/-- C7: a parse failure, or a parsed document whose top level is not a
mapping, aborts the run with an error before a single line is printed;
a well-formed catalog conversely yields the full document with no error,
so no partial rule graph is ever emitted for a malformed document. -/
theorem malformed_document_aborts (parsed : Except String YVal)
    (h : (∃ e, parsed = .error e) ∨ ∃ v, parsed = .ok v ∧ ∀ kvs, v ≠ YVal.map kvs) :
    ((run_main parsed).1 = [] ∧ ∃ err, (run_main parsed).2 = some err) ∧
    ∀ tasks : List Task, run_main (.ok (yCatalog tasks)) = (main_output tasks, none) := by
  constructor
  · rcases h with ⟨e, rfl⟩ | ⟨v, rfl, hv⟩
    · exact ⟨rfl, ⟨e, rfl⟩⟩
    · cases v with
      | map kvs => exact absurd rfl (hv kvs)
      | null => exact ⟨rfl, ⟨"AttributeError", rfl⟩⟩
      | bool b => exact ⟨rfl, ⟨"AttributeError", rfl⟩⟩
      | str s => exact ⟨rfl, ⟨"AttributeError", rfl⟩⟩
      | int m => exact ⟨rfl, ⟨"AttributeError", rfl⟩⟩
      | list xs => exact ⟨rfl, ⟨"AttributeError", rfl⟩⟩
  · intro tasks
    exact run_main_yCatalog tasks

/-- Witness for `malformed_document_aborts` at a concrete parse error. -/
theorem malformed_document_aborts_witness :
    (run_main (.error "while parsing a block mapping")).1 = [] ∧
    ∃ err, (run_main (.error "while parsing a block mapping")).2 = some err :=
  (malformed_document_aborts (.error "while parsing a block mapping")
    (.inl ⟨"while parsing a block mapping", rfl⟩)).1

/-- C9: any argument vector that is not exactly a program name plus one
document path prints the usage line and exits 1 without any document
output; with one path whose parse is a well-formed catalog, the document
is emitted and the exit code is 0. -/
theorem cli_arity_and_success (parse : String → Except String YVal) (argv : List String)
    (prog path : String) (tasks : List Task)
    (h : argv.length ≠ 2) (hp : parse path = .ok (yCatalog tasks)) :
    run_cli parse argv = (["Usage: mk_tasks.py TASKS.yaml"], 1) ∧
    run_cli parse [prog, path] = (main_output tasks, 0) := by
  constructor
  · rcases argv with _ | ⟨x, _ | ⟨y, rest⟩⟩
    · rfl
    · rfl
    · rcases rest with _ | ⟨z, rest⟩
      · exact absurd rfl h
      · rfl
  · simp [run_cli, hp, run_main_yCatalog]

/-- Witness for `cli_arity_and_success` with an empty argument vector and
the example catalog. -/
theorem cli_arity_and_success_witness :
    run_cli exParse [] = (["Usage: mk_tasks.py TASKS.yaml"], 1) ∧
    run_cli exParse ["mk_tasks.py", "tasks.yaml"] = (main_output exCatalog, 0) :=
  cli_arity_and_success exParse [] "mk_tasks.py" "tasks.yaml" exCatalog (by decide) rfl

end VCFX.MkTasks
